import Mathlib

/-!
Verification of the grading pipeline of the Backend repository
(src/services/codeExecution.js) against its natural-language specification.

The JavaScript module is shallowly embedded: each function becomes a total
Lean function.  Effectful library calls (fs.writeFileSync, fs.unlinkSync,
child_process.exec, JSON.parse) are modelled by an `Env` record supplying
the outcome each call would have in one grading run; the embedded functions
branch on those outcomes exactly as the JavaScript control flow does.
JavaScript strings are Lean `String`s; the string primitives used by the
source (split('\n'), trim(), startsWith) are embedded as structurally
recursive functions over `List Char` so that all of them are executable by
the kernel.  The generated Python test driver (the template literal in
prepareTestFile) is embedded as `run_tests`, parameterised by the outcome
of each of the three invocations of the submitted two_sum function.
-/

namespace CodeExecution

/-- JSON scalar values that can appear in a `passed` field of a parsed
outcome record: boolean, string or number (JSON.parse output). -/
inductive JVal where
  | jb (b : Bool)
  | js (s : String)
  | jn (q : ℚ)
deriving DecidableEq, Repr

/-- One record of the list printed by the Python harness and parsed by
JSON.parse in executeCode: a per-case outcome record (fields case, input,
expected, actual, passed, execution_time) or an error record (field error).
Absent fields are `none`, matching absent keys on a JavaScript object. -/
structure CaseRecord where
  caseIdx : Option Nat := none
  input : Option String := none
  expected : Option String := none
  actual : Option String := none
  passed : Option JVal := none
  execution_time : Option ℚ := none
  error : Option String := none
deriving DecidableEq, Repr

/-- The verdict object resolved by executeCode / returned by runCode.
Optional fields model keys that are present only on some paths. -/
structure Verdict where
  success : Bool
  output : Option String := none
  testResults : Option (List CaseRecord) := none
  executionTime : Option String := none
  message : Option String := none
  error : Option String := none
deriving DecidableEq, Repr

/-- Result object of validateCode: either valid=false with an error
message, or valid=true with the (possibly modified) code and an optional
informational message. -/
structure ValidationResult where
  valid : Bool
  error : Option String := none
  modifiedCode : Option String := none
  message : Option String := none
deriving DecidableEq, Repr

/-- Outcomes of the effectful calls made during one grading run:
whether fs.writeFileSync throws (and the thrown message), the error and
captured stdout/stderr of the exec callback, whether fs.unlinkSync throws,
and what JSON.parse yields on any string (ok = parsed record list,
error = the parse exception message). -/
structure Env where
  writeError : Option String := none
  execError : Option String := none
  stdout : String := ""
  stderr : String := ""
  unlinkError : Option String := none
  parse : String → Except String (List CaseRecord) := fun _ => .error "Unexpected end of JSON input"

/-- JavaScript truthiness of an optional string value: undefined and the
empty string are falsy, every other string is truthy. -/
def jsTruthy : Option String → Bool
  | none => false
  | some s => s != ""

/-- Splitting a character sequence at every newline, embedding
String.prototype.split('\n'): n separators yield n+1 pieces, empty pieces
included. -/
def splitOnNl : List Char → List (List Char)
  | [] => [[]]
  | c :: rest =>
    if c = '\n' then [] :: splitOnNl rest
    else
      match splitOnNl rest with
      | h :: t => (c :: h) :: t
      | [] => [[c]]

/-- The lines of a submission string, as the JavaScript code.split('\n'). -/
def linesOf (code : String) : List (List Char) := splitOnNl code.data

/-- Removing leading and trailing whitespace, embedding
String.prototype.trim(). -/
def trimChars (l : List Char) : List Char :=
  ((l.dropWhile Char.isWhitespace).reverse.dropWhile Char.isWhitespace).reverse

/-- Whether the first list is an initial segment of the second, embedding
String.prototype.startsWith. -/
def startsWithChars : List Char → List Char → Bool
  | [], _ => true
  | _ :: _, [] => false
  | p :: ps, c :: cs => p == c && startsWithChars ps cs

/-- Whether the needle occurs contiguously in the haystack, used to state
that an error text carries a given fragment. -/
def containsChars (needle : List Char) : List Char → Bool
  | [] => needle.isEmpty
  | c :: rest => startsWithChars needle (c :: rest) || containsChars needle rest

/-- Substring occurrence on strings, via their character lists. -/
def strContains (hay needle : String) : Bool :=
  containsChars needle.data hay.data

/-- The line predicate of validateCode:
line.trim().startsWith('def two_sum'). -/
def isDefTwoSumLine (l : List Char) : Bool :=
  startsWithChars "def two_sum".data (trimChars l)

/-- Embedding of Array.prototype.findIndex, as an Option-valued index of
the first element satisfying the predicate. -/
def findIndex {α : Type} (p : α → Bool) : List α → Option Nat
  | [] => none
  | l :: rest => if p l then some 0 else (findIndex p rest).map (· + 1)

/-- Embedding of the implementation-scan loop of validateCode (over the
lines after the function definition line): an indented line that is
neither blank nor a comment counts as an implementation; a non-indented
non-blank line exits the function body and stops the scan. -/
def hasImplementation : List (List Char) → Bool
  | [] => false
  | l :: rest =>
    if startsWithChars [' '] l || startsWithChars ['\t'] l then
      if !(trimChars l).isEmpty && !startsWithChars ['#'] (trimChars l) then true
      else hasImplementation rest
    else if !(trimChars l).isEmpty then false
    else hasImplementation rest

/-- The validation error message of validateCode. -/
def noFunctionMsg : String :=
  "No two_sum function found. Please define a function named two_sum(nums, target)."

/-- The informational message attached when a pass statement is inserted. -/
def emptyBodyMsg : String :=
  "Your function appears to be empty. A pass statement has been added to make it valid."

/-- The no-op line spliced in for an empty function body. -/
def passLine : String := "    pass  # Added automatically"

/-- Embedding of validateCode: split into lines, find the first line whose
trimmed text starts with the characters of a two_sum definition header,
then scan the following lines for an implementation, splicing in a pass
statement (lines.splice(functionLineIndex + 1, 0, ...) followed by
lines.join('\n')) when none is found. -/
def validateCode (code : String) : ValidationResult :=
  match findIndex isDefTwoSumLine (linesOf code) with
  | none => { valid := false, error := some noFunctionMsg }
  | some functionLineIndex =>
    if hasImplementation ((linesOf code).drop (functionLineIndex + 1)) then
      { valid := true, modifiedCode := some code }
    else
      { valid := true
        modifiedCode := some (String.mk (List.intercalate ['\n']
          ((linesOf code).take (functionLineIndex + 1) ++ [passLine.data]
            ++ (linesOf code).drop (functionLineIndex + 1))))
        message := some emptyBodyMsg }

/-- Builds the per-case outcome record appended by the Python driver:
passed is the boolean str(actual) == expected, serialized by json.dumps as
a JSON boolean. -/
def mkCaseRec (idx : Nat) (inp expct actual : String) (t : ℚ) : CaseRecord :=
  { caseIdx := some idx, input := some inp, expected := some expct,
    actual := some actual, passed := some (.jb (decide (actual = expct))),
    execution_time := some t }

/-- Embedding of the generated Python driver run_tests (the template
literal in prepareTestFile).  All three test cases sit in one try block;
`oi` is the outcome of the i-th invocation of the submitted two_sum
(ok = the str() of its return value, error = the str() of a raised
exception) and `ti` its measured elapsed time.  An exception aborts the
loop and appends an error record after the records already collected. -/
def run_tests (o1 o2 o3 : Except String String) (t1 t2 t3 : ℚ) : List CaseRecord :=
  match o1 with
  | .error e => [{ error := some e }]
  | .ok a1 =>
    let r1 := mkCaseRec 1 "[2, 7, 11, 15], 9" "[0, 1]" a1 t1
    match o2 with
    | .error e => [r1, { error := some e }]
    | .ok a2 =>
      let r2 := mkCaseRec 2 "[3, 2, 4], 6" "[1, 2]" a2 t2
      match o3 with
      | .error e => [r1, r2, { error := some e }]
      | .ok a3 => [r1, r2, mkCaseRec 3 "[3, 3], 6" "[0, 1]" a3 t3]

/-- The strict-equality check on a record's passed flag used in
executeCode: result.passed === "True" || result.passed === true. -/
def passedTruthy (r : CaseRecord) : Bool :=
  decide (r.passed = some (.js "True")) || decide (r.passed = some (.jb true))

/-- A parsed result list that triggers the in-harness-error branch of
executeCode: exactly one element whose error field is truthy
(results.length === 1 && results[0].error). -/
def isSingletonError : List CaseRecord → Bool
  | [r] => jsTruthy r.error
  | _ => false

/-- The error field of the first parsed record, embedding
results[0].error. -/
def headError : List CaseRecord → Option String
  | [] => none
  | r :: _ => r.error

/-- Decimal rendering with four fractional digits, embedding
Number.prototype.toFixed(4) on the summed execution times. -/
def toFixed4 (q : ℚ) : String :=
  let scaled : Int := round (q * 10000)
  let sign := if scaled < 0 then "-" else ""
  let n := scaled.natAbs
  let fp := toString (n % 10000)
  sign ++ toString (n / 10000) ++ "." ++
    String.mk (List.replicate (4 - fp.length) '0') ++ fp

/-- The aggregation tail of executeCode on a parsed result list that is
not a singleton error record: allPassed, total time, output text,
testResults, and the informational message when it is truthy. -/
def aggregateResults (results : List CaseRecord) (message : Option String) : Verdict :=
  let allPassed := results.all passedTruthy
  let totalTime := results.foldl (fun acc r => acc + r.execution_time.getD 0) 0
  { success := allPassed
    output := some (if allPassed then "All test cases passed!" else "Some test cases failed.")
    testResults := some results
    executionTime := some (toFixed4 totalTime ++ "s")
    message := if jsTruthy message then message else none }

/-- Embedding of the exec callback body of executeCode.  The callback
first unlinks the temp file inside the outer try, so a throwing unlinkSync
routes every run to the catch that resolves the Failed-to-process verdict;
then the exec error, JSON.parse, the singleton error record, and finally
the normal aggregation are handled in the source's order. -/
def executeCode (env : Env) (message : Option String) : Verdict :=
  match env.unlinkError with
  | some e =>
    { success := false, error := some ("Failed to process execution results: " ++ e) }
  | none =>
    match env.execError with
    | some em =>
      { success := false, error := some (if env.stderr = "" then em else env.stderr) }
    | none =>
      match env.parse env.stdout with
      | .error pe =>
        { success := false,
          error := some ("Failed to parse Python output: " ++ pe ++ "\nRaw output: " ++ env.stdout) }
      | .ok results =>
        if isSingletonError results then { success := false, error := headError results }
        else aggregateResults results message

/-- Embedding of runCode, the grading facade.  prepareTestFile throws the
validation error when validateCode rejects, and rethrows a writeFileSync
failure; both are caught by runCode's try/catch and become a
Failed-to-execute verdict.  Otherwise the validation message is forwarded
to executeCode. -/
def runCode (env : Env) (code : String) : Verdict :=
  if (validateCode code).valid then
    match env.writeError with
    | some we => { success := false, error := some ("Failed to execute code: " ++ we) }
    | none => executeCode env (validateCode code).message
  else
    { success := false,
      error := some ("Failed to execute code: " ++ (validateCode code).error.getD "") }

/-- Helper: a truthy optional string is present. -/
theorem isSome_of_jsTruthy {o : Option String} (h : jsTruthy o = true) : o.isSome = true := by
  cases o with
  | none => simp [jsTruthy] at h
  | some s => rfl

/-- Helper: a singleton error record has a present first error field. -/
theorem headError_isSome_of_singletonError {rs : List CaseRecord}
    (h : isSingletonError rs = true) : (headError rs).isSome = true := by
  match rs with
  | [] => simp [isSingletonError] at h
  | [r] => exact isSome_of_jsTruthy h
  | _ :: _ :: _ => simp [isSingletonError] at h

/-- Helper: findIndex misses when no element satisfies the predicate. -/
theorem findIndex_eq_none_of_any_eq_false {α : Type} {p : α → Bool} :
    ∀ {l : List α}, l.any p = false → findIndex p l = none := by
  intro l
  induction l with
  | nil => intro _; rfl
  | cons a rest ih =>
    intro h
    rw [List.any_cons, Bool.or_eq_false_iff] at h
    simp [findIndex, h.1, ih h.2]

/-- Helper: findIndex hits when some element satisfies the predicate. -/
theorem findIndex_isSome_of_any_eq_true {α : Type} {p : α → Bool} :
    ∀ {l : List α}, l.any p = true → (findIndex p l).isSome = true := by
  intro l
  induction l with
  | nil => intro h; simp at h
  | cons a rest ih =>
    intro h
    cases hpa : p a with
    | true => simp [findIndex, hpa]
    | false =>
      rw [List.any_cons, hpa, Bool.false_or] at h
      simp [findIndex, hpa, ih h]

/-- Claim C10: validateCode treats as valid (no NoFunctionFound error)
every submission containing some line whose leading-whitespace-trimmed
text begins with the characters "def two_sum", regardless of the rest of
that line — only this prefix of the definition header is checked, not the
exact name and two-argument calling convention. -/
theorem validateCode_accepts_def_prefix (code : String)
    (h : (linesOf code).any isDefTwoSumLine = true) :
    (validateCode code).valid = true ∧ (validateCode code).error = none := by
  unfold validateCode
  cases hf : findIndex isDefTwoSumLine (linesOf code) with
  | none =>
    have hs := findIndex_isSome_of_any_eq_true h
    rw [hf] at hs
    simp at hs
  | some i =>
    by_cases hi : hasImplementation ((linesOf code).drop (i + 1)) <;> simp [hi]

/-- Witness for C10: a helper-named definition with a three-argument
calling convention passes validation. -/
theorem validateCode_accepts_def_prefix_witness :
    (linesOf "def two_sum_helper(a, b, c):\n    return 0").any isDefTwoSumLine = true ∧
    (validateCode "def two_sum_helper(a, b, c):\n    return 0").valid = true ∧
    (validateCode "def two_sum_helper(a, b, c):\n    return 0").error = none :=
  ⟨by decide,
   validateCode_accepts_def_prefix "def two_sum_helper(a, b, c):\n    return 0" (by decide)⟩

/-- Claim C2: a submission with no line whose trimmed text begins the
two_sum definition makes runCode return success=false with the validation
message wrapped in the facade's Failed-to-execute text, independently of
every effect outcome — in particular no interpreter process is launched,
since the verdict does not depend on the execution environment. -/
theorem runCode_no_function_short_circuits (env : Env) (code : String)
    (h : (linesOf code).any isDefTwoSumLine = false) :
    runCode env code =
      { success := false, error := some ("Failed to execute code: " ++ noFunctionMsg) } := by
  have hf := findIndex_eq_none_of_any_eq_false h
  unfold runCode validateCode
  rw [hf]
  simp

/-- Witness for C2: a function-free submission yields the validation
failure verdict even under an environment whose execution effects would
all report differently. -/
theorem runCode_no_function_short_circuits_witness :
    (linesOf "# just a comment\nprint(1)").any isDefTwoSumLine = false ∧
    runCode { writeError := some "w", execError := some "x", stdout := "[]", stderr := "s",
              unlinkError := some "u", parse := fun _ => .ok [] } "# just a comment\nprint(1)" =
      { success := false, error := some ("Failed to execute code: " ++ noFunctionMsg) } :=
  ⟨by decide, runCode_no_function_short_circuits _ _ (by decide)⟩

/-- Claim C3 counterexample: when deleting the temp file fails, the
cleanup failure does mask an execution failure already detected — the
verdict's error is the Failed-to-process text and carries neither the
captured stderr nor the exec error description. -/
theorem unlink_failure_masks_exec_error :
    executeCode { execError := some "Command failed: python file.py",
                  stderr := "Traceback: NameError",
                  unlinkError := some "EPERM: operation not permitted" } none =
      { success := false,
        error := some "Failed to process execution results: EPERM: operation not permitted" } ∧
    strContains "Failed to process execution results: EPERM: operation not permitted"
      "Traceback: NameError" = false ∧
    strContains "Failed to process execution results: EPERM: operation not permitted"
      "Command failed: python file.py" = false :=
  ⟨by decide, by decide, by decide⟩

/-- Claim C3 amended: the deletion of the temp file is attempted after
process termination on every exit path — whatever the exec and parse
outcomes, a failing unlinkSync determines the verdict, which reports the
cleanup failure but replaces any execution failure already detected. -/
theorem unlink_failure_reported (env : Env) (msg : Option String) (e : String)
    (h : env.unlinkError = some e) :
    executeCode env msg =
      { success := false, error := some ("Failed to process execution results: " ++ e) } := by
  unfold executeCode
  rw [h]

/-- Witness for the amended C3, at a concrete environment in which the
process also failed. -/
theorem unlink_failure_reported_witness :
    executeCode { execError := some "exit 1", stderr := "boom",
                  unlinkError := some "ENOENT: no such file or directory" } none =
      { success := false,
        error := some ("Failed to process execution results: "
          ++ "ENOENT: no such file or directory") } :=
  unlink_failure_reported _ none _ rfl

/-- Claim C7 counterexample: with an exec error present and a non-empty
stderr, a failing cleanup makes the verdict's error the Failed-to-process
text rather than the captured stderr. -/
theorem exec_error_masked_by_unlink_failure :
    (executeCode { execError := some "spawn python ENOENT", stderr := "python: not found",
                   unlinkError := some "EBUSY: resource busy" } none).error =
      some "Failed to process execution results: EBUSY: resource busy" ∧
    ("Failed to process execution results: EBUSY: resource busy" = "python: not found") = False :=
  ⟨by decide, by decide⟩

/-- Claim C7 amended: provided the temp-file deletion succeeds, an exec
error yields success=false with error equal to the captured stderr when it
is non-empty and otherwise the process error description; no testResults
are attached and the verdict does not depend on the parse of stdout. -/
theorem exec_error_verdict (env : Env) (msg : Option String) (em : String)
    (hu : env.unlinkError = none) (hx : env.execError = some em) :
    executeCode env msg =
      { success := false, error := some (if env.stderr = "" then em else env.stderr) } := by
  unfold executeCode
  rw [hu, hx]

/-- Witness for the amended C7, with a non-empty stderr chosen over the
process error description. -/
theorem exec_error_verdict_witness :
    executeCode { execError := some "Command failed: python file.py",
                  stderr := "SyntaxError: invalid syntax",
                  parse := fun _ => .ok [] } none =
      { success := false,
        error := some (if ("SyntaxError: invalid syntax" : String) = ""
          then "Command failed: python file.py" else "SyntaxError: invalid syntax") } :=
  exec_error_verdict _ none _ rfl rfl

/-- Claim C8 counterexample: with a clean exit and an unparsable stdout, a
failing cleanup makes the verdict's error the Failed-to-process text,
which contains neither the parse failure reason nor the raw output. -/
theorem parse_failure_masked_by_unlink_failure :
    (executeCode { stdout := "RAWOUT-7731", unlinkError := some "EACCES: permission denied",
                   parse := fun _ => .error "Unexpected token R in JSON at position 0" }
        none).error =
      some "Failed to process execution results: EACCES: permission denied" ∧
    strContains "Failed to process execution results: EACCES: permission denied"
      "RAWOUT-7731" = false ∧
    strContains "Failed to process execution results: EACCES: permission denied"
      "Unexpected token R in JSON at position 0" = false :=
  ⟨by decide, by decide, by decide⟩

/-- Claim C8 amended: provided the temp-file deletion succeeds, a clean
exit whose stdout fails to parse yields success=false whose error is
exactly the Failed-to-parse text carrying the parse failure reason and the
full untruncated raw output, with no testResults attached. -/
theorem parse_failure_verdict (env : Env) (msg : Option String) (pe : String)
    (hu : env.unlinkError = none) (hx : env.execError = none)
    (hp : env.parse env.stdout = .error pe) :
    executeCode env msg =
      { success := false,
        error := some ("Failed to parse Python output: " ++ pe
          ++ "\nRaw output: " ++ env.stdout) } := by
  unfold executeCode
  rw [hu, hx, hp]

/-- Witness for the amended C8, at a concrete unparsable stdout. -/
theorem parse_failure_verdict_witness :
    executeCode { stdout := "hello world",
                  parse := fun _ => .error "Unexpected token h in JSON at position 0" } none =
      { success := false,
        error := some ("Failed to parse Python output: "
          ++ "Unexpected token h in JSON at position 0"
          ++ "\nRaw output: " ++ "hello world") } :=
  parse_failure_verdict _ none _ rfl rfl rfl

/-- Claim C6 counterexample: a stdout that parses as a normal outcome list
does not determine the verdict when the process exited abnormally — here
the empty outcome list would make the conjunction of passed flags true,
yet the verdict is the exec failure with success=false and no testResults. -/
theorem exec_error_overrides_parseable_stdout :
    ({ execError := some "Command failed: exit code 2", stdout := "[]",
       parse := fun s => if s = "[]" then .ok [] else .error "nope" } : Env).parse "[]" =
      .ok [] ∧
    isSingletonError [] = false ∧
    ([] : List CaseRecord).all passedTruthy = true ∧
    executeCode { execError := some "Command failed: exit code 2", stdout := "[]",
                  parse := fun s => if s = "[]" then .ok [] else .error "nope" } none =
      { success := false, error := some "Command failed: exit code 2" } :=
  ⟨rfl, rfl, rfl, by decide⟩

/-- Claim C6 amended: provided the process exited cleanly and the
temp-file deletion succeeds, a stdout parsing as a normal
(non-singleton-error) outcome list yields a verdict whose success is the
conjunction over all records of the passed flag (honoring boolean true and
the literal string "True"), whose output is the all-passed or some-failed
text accordingly, and whose testResults equal the parsed outcome list. -/
theorem normal_outcome_list_verdict (env : Env) (msg : Option String)
    (results : List CaseRecord)
    (hu : env.unlinkError = none) (hx : env.execError = none)
    (hp : env.parse env.stdout = .ok results) (hn : isSingletonError results = false) :
    (executeCode env msg).success = results.all passedTruthy ∧
    (executeCode env msg).output =
      some (if results.all passedTruthy then "All test cases passed!"
        else "Some test cases failed.") ∧
    (executeCode env msg).testResults = some results := by
  unfold executeCode
  rw [hu, hx, hp]
  simp [hn, aggregateResults]

/-- Witness for the amended C6: a single record whose passed flag is the
string "True" is honored and produces a successful verdict. -/
theorem normal_outcome_list_verdict_witness :
    (executeCode { stdout := "ok",
                   parse := fun _ => .ok [{ passed := some (.js "True") }] } none).success =
      ([{ passed := some (.js "True") }] : List CaseRecord).all passedTruthy ∧
    (executeCode { stdout := "ok",
                   parse := fun _ => .ok [{ passed := some (.js "True") }] } none).output =
      some (if ([{ passed := some (.js "True") }] : List CaseRecord).all passedTruthy
        then "All test cases passed!" else "Some test cases failed.") ∧
    (executeCode { stdout := "ok",
                   parse := fun _ => .ok [{ passed := some (.js "True") }] } none).testResults =
      some [{ passed := some (.js "True") }] :=
  normal_outcome_list_verdict _ none _ rfl rfl rfl rfl

/-- Claim C4 counterexample: when the submitted function raises only on
the second test case, the driver emits a two-element list (the collected
first outcome followed by the error record), not a single-element error
record, and the interpreter attaches it as testResults. -/
theorem later_case_exception_not_singleton :
    (run_tests (.ok "[0, 1]") (.error "IndexError: list index out of range") (.ok "[0, 1]")
      0 0 0).length = 2 ∧
    (executeCode { stdout := "r",
                   parse := fun _ => .ok (run_tests (.ok "[0, 1]")
                     (.error "IndexError: list index out of range") (.ok "[0, 1]") 0 0 0) }
        none).testResults =
      some (run_tests (.ok "[0, 1]") (.error "IndexError: list index out of range")
        (.ok "[0, 1]") 0 0 0) :=
  ⟨rfl, rfl⟩

/-- Claim C4 amended: an exception aborts the driver loop, and when it is
raised during the first case the emitted list is the single error record,
which the interpreter (on clean exit and successful cleanup, for a
non-empty message) converts to success=false with error equal to that
record's message and no testResults; when raised during a later case the
error record is appended after the outcomes already collected. -/
theorem first_case_exception_verdict (e a1 : String) (o2 o3 : Except String String)
    (t1 t2 t3 : ℚ) (env : Env) (msg : Option String)
    (he : e ≠ "")
    (hu : env.unlinkError = none) (hx : env.execError = none)
    (hp : env.parse env.stdout = .ok (run_tests (.error e) o2 o3 t1 t2 t3)) :
    executeCode env msg = { success := false, error := some e } ∧
    run_tests (.ok a1) (.error e) o3 t1 t2 t3 =
      [mkCaseRec 1 "[2, 7, 11, 15], 9" "[0, 1]" a1 t1, { error := some e }] := by
  constructor
  · unfold executeCode
    rw [hu, hx, hp]
    have h2 : jsTruthy (some e) = true := by simp [jsTruthy, he]
    simp [run_tests, isSingletonError, headError, h2]
  · rfl

/-- Witness for the amended C4, at a concrete first-case exception. -/
theorem first_case_exception_verdict_witness :
    executeCode { stdout := "out",
                  parse := fun _ => .ok (run_tests (.error "ZeroDivisionError: division by zero")
                    (.ok "x") (.ok "y") 0 0 0) } none =
      { success := false, error := some "ZeroDivisionError: division by zero" } ∧
    run_tests (.ok "[0, 1]") (.error "ZeroDivisionError: division by zero") (.ok "y") 0 0 0 =
      [mkCaseRec 1 "[2, 7, 11, 15], 9" "[0, 1]" "[0, 1]" 0, { error := some "ZeroDivisionError: division by zero" }] :=
  first_case_exception_verdict "ZeroDivisionError: division by zero" "[0, 1]"
    (.ok "x") (.ok "y") 0 0 0 _ none (by decide) rfl rfl rfl

/-- Claim C5 counterexample: for an empty-body submission the synthesis
message exists, but when the interpreter process fails to start the
returned verdict carries no informational message at all — the message is
only forwarded on the normal parse-success path. -/
theorem empty_body_message_lost_on_exec_error :
    (validateCode "def two_sum(nums, target):\n    # TODO").message = some emptyBodyMsg ∧
    runCode { execError := some "spawn python ENOENT" }
        "def two_sum(nums, target):\n    # TODO" =
      { success := false, error := some "spawn python ENOENT" } ∧
    (runCode { execError := some "spawn python ENOENT" }
        "def two_sum(nums, target):\n    # TODO").message = none :=
  ⟨by decide, by decide, by decide⟩

/-- Claim C5 amended: a submission with the required definition line and
no non-blank, non-comment statement in its indented body passes
validation; the pass placeholder line is spliced in immediately after the
definition line; the informational message is attached by the synthesis
stage; and when writing, execution, cleanup and parsing succeed normally,
the returned verdict forwards that message unchanged. -/
theorem empty_body_lenient_with_message (code : String) (i : Nat) (env : Env)
    (results : List CaseRecord)
    (hf : findIndex isDefTwoSumLine (linesOf code) = some i)
    (hb : hasImplementation ((linesOf code).drop (i + 1)) = false)
    (hw : env.writeError = none) (hu : env.unlinkError = none) (hx : env.execError = none)
    (hp : env.parse env.stdout = .ok results) (hn : isSingletonError results = false) :
    (validateCode code).valid = true ∧
    (validateCode code).modifiedCode = some (String.mk (List.intercalate ['\n']
      ((linesOf code).take (i + 1) ++ [passLine.data] ++ (linesOf code).drop (i + 1)))) ∧
    (validateCode code).message = some emptyBodyMsg ∧
    (runCode env code).message = some emptyBodyMsg := by
  have hval : validateCode code =
      { valid := true
        modifiedCode := some (String.mk (List.intercalate ['\n']
          ((linesOf code).take (i + 1) ++ [passLine.data] ++ (linesOf code).drop (i + 1))))
        message := some emptyBodyMsg } := by
    unfold validateCode
    rw [hf]
    simp [hb]
  have hmsg : jsTruthy (some emptyBodyMsg) = true := by decide
  refine ⟨by rw [hval], by rw [hval], by rw [hval], ?_⟩
  unfold runCode executeCode
  rw [hval, hw, hu, hx, hp]
  simp [hn, aggregateResults, hmsg]

/-- Witness for the amended C5, at a concrete comment-only body. -/
theorem empty_body_lenient_with_message_witness :
    (validateCode "def two_sum(nums, target):\n    # fill in").valid = true ∧
    (validateCode "def two_sum(nums, target):\n    # fill in").modifiedCode =
      some (String.mk (List.intercalate ['\n']
        ((linesOf "def two_sum(nums, target):\n    # fill in").take 1 ++ [passLine.data]
          ++ (linesOf "def two_sum(nums, target):\n    # fill in").drop 1))) ∧
    (validateCode "def two_sum(nums, target):\n    # fill in").message = some emptyBodyMsg ∧
    (runCode { parse := fun _ => .ok [] }
      "def two_sum(nums, target):\n    # fill in").message = some emptyBodyMsg :=
  empty_body_lenient_with_message "def two_sum(nums, target):\n    # fill in" 0
    { parse := fun _ => .ok [] } [] (by decide) (by decide) rfl rfl rfl rfl rfl

/-- Claim C1: runCode is a total function into verdicts, and every
internal failure — validation rejection, temp-file write failure, cleanup
failure, process failure, parse failure, or an in-harness error record —
is converted into a verdict with success=false and a present error
description; no failure escapes the facade. -/
theorem runCode_failure_caught (env : Env) (code : String)
    (h : (validateCode code).valid = false ∨ env.writeError.isSome = true ∨
         env.unlinkError.isSome = true ∨ env.execError.isSome = true ∨
         (∃ pe, env.parse env.stdout = Except.error pe) ∨
         (∃ rs, env.parse env.stdout = Except.ok rs ∧ isSingletonError rs = true)) :
    (runCode env code).success = false ∧ (runCode env code).error.isSome = true := by
  unfold runCode executeCode
  by_cases hv : (validateCode code).valid
  case neg => simp [hv]
  case pos =>
    simp only [hv, if_true]
    cases hw : env.writeError with
    | some we => simp
    | none =>
      cases hu : env.unlinkError with
      | some e => simp
      | none =>
        cases hx : env.execError with
        | some em => simp
        | none =>
          cases hp : env.parse env.stdout with
          | error pe => simp
          | ok results =>
            cases hs : isSingletonError results with
            | true =>
              refine ⟨by simp [hs], ?_⟩
              have hh := headError_isSome_of_singletonError hs
              simp [hs, hh]
            | false =>
              exfalso
              rcases h with h | h | h | h | ⟨pe, hpe⟩ | ⟨rs, hok, hsing⟩
              · rw [hv] at h; exact Bool.noConfusion h
              · rw [hw] at h; exact Bool.noConfusion h
              · rw [hu] at h; exact Bool.noConfusion h
              · rw [hx] at h; exact Bool.noConfusion h
              · rw [hp] at hpe; exact Except.noConfusion hpe
              · rw [hp] at hok
                injection hok with heq
                rw [← heq] at hsing
                rw [hsing] at hs
                exact Bool.noConfusion hs

/-- Witness for C1: a temp-file write failure is caught and reported. -/
theorem runCode_failure_caught_witness :
    (runCode { writeError := some "ENOSPC: no space left on device" }
      "def two_sum(a, b):\n    return [0, 1]").success = false ∧
    (runCode { writeError := some "ENOSPC: no space left on device" }
      "def two_sum(a, b):\n    return [0, 1]").error.isSome = true :=
  runCode_failure_caught _ _ (Or.inr (Or.inl rfl))

/-- Claim C9: whenever a verdict returned by runCode has success=true, it
carries no error, the all-passed output text, a present executionTime
string, and testResults in which every record's passed flag is boolean
true or the string "True". -/
theorem success_implies_clean_pass (env : Env) (code : String)
    (h : (runCode env code).success = true) :
    (runCode env code).error = none ∧
    (runCode env code).output = some "All test cases passed!" ∧
    (runCode env code).executionTime.isSome = true ∧
    ∃ rs, (runCode env code).testResults = some rs ∧ rs.all passedTruthy = true := by
  unfold runCode executeCode at h ⊢
  by_cases hv : (validateCode code).valid
  case neg => simp [hv] at h
  case pos =>
    simp only [hv, if_true] at h ⊢
    cases hw : env.writeError with
    | some we => rw [hw] at h; simp at h
    | none =>
      rw [hw] at h
      cases hu : env.unlinkError with
      | some e => rw [hu] at h; simp at h
      | none =>
        rw [hu] at h
        cases hx : env.execError with
        | some em => rw [hx] at h; simp at h
        | none =>
          rw [hx] at h
          cases hp : env.parse env.stdout with
          | error pe => rw [hp] at h; simp at h
          | ok results =>
            rw [hp] at h
            cases hs : isSingletonError results with
            | true => simp [hs] at h
            | false =>
              simp [hs, aggregateResults] at h
              refine ⟨?_, ?_, ?_, results, ?_, ?_⟩ <;> simp [hs, aggregateResults, h] <;>
                exact h

/-- Witness for C9: a run whose parsed outcome list is empty succeeds and
exhibits the invariant fields. -/
theorem success_implies_clean_pass_witness :
    (runCode { parse := fun _ => .ok [] } "def two_sum(a, b):\n    return [0, 1]").error =
      none ∧
    (runCode { parse := fun _ => .ok [] } "def two_sum(a, b):\n    return [0, 1]").output =
      some "All test cases passed!" ∧
    (runCode { parse := fun _ => .ok [] }
      "def two_sum(a, b):\n    return [0, 1]").executionTime.isSome = true ∧
    ∃ rs, (runCode { parse := fun _ => .ok [] }
        "def two_sum(a, b):\n    return [0, 1]").testResults = some rs ∧
      rs.all passedTruthy = true :=
  success_implies_clean_pass _ _ (by decide)

end CodeExecution
